import Mathlib

/-!
Shallow embedding of the job-scraper aggregation pipeline: `scraper.py`,
`models.py`, and the three source adapters under `scrapers/`.

Modelling conventions: Python numeric JSON scalars are rationals; Python
strings are Lean strings; a dictionary entry that is absent or `None` is
`Option.none`; a function that may raise and is wrapped in a per-item
`try/except` returning `None` is an `Option`-valued function.
-/

/-- Upstream JSON scalar as it can appear in the numeric salary fields:
the feed may hand the adapter either a number or a string. -/
inductive PyNum where
  | num (q : ℚ)
  | str (s : String)
  deriving DecidableEq, Repr

/-- Python truthiness of an optional numeric-or-string value:
`None`, `0` and `""` are falsy, everything else is truthy. -/
def pyTruthy : Option PyNum → Bool
  | none => false
  | some (.num q) => q != 0
  | some (.str s) => s != ""

/-- Python truthiness of an optional string (`None` and `""` are falsy). -/
def pyTruthyS : Option String → Bool
  | none => false
  | some s => s != ""

/-- Model of the Python method `s.lower()` (character-wise lower-casing). -/
def strToLower (s : String) : String :=
  String.mk (s.toList.map Char.toLower)

/-- Model of the Python method `s.strip()`: drop whitespace from both ends. -/
def strTrim (s : String) : String :=
  String.mk (((s.toList.dropWhile Char.isWhitespace).reverse.dropWhile
    Char.isWhitespace).reverse)

/-- Model of the Python slice `s[:n]`. -/
def strTake (s : String) (n : ℕ) : String :=
  String.mk (s.toList.take n)

/-- Numeric value of a list of decimal digits, most significant first. -/
def digitsToNat (l : List Char) : ℕ :=
  l.foldl (fun a c => 10 * a + (c.toNat - 48)) 0

/-- Model of Python `float(s)` on strings, restricted to the optional-sign
decimal forms relevant to the scraped feeds; `none` models the
`ValueError` raised on a malformed literal such as `"abc"`. -/
def pyFloatString? (s : String) : Option ℚ :=
  let t := (strTrim s).toList
  let signed : ℚ × List Char :=
    match t with
    | '-' :: r => (-1, r)
    | '+' :: r => (1, r)
    | r => (1, r)
  let ip := signed.2.takeWhile (fun c => c != '.')
  match signed.2.dropWhile (fun c => c != '.') with
  | [] =>
      if ip ≠ [] ∧ ip.all Char.isDigit then
        some (signed.1 * digitsToNat ip)
      else none
  | _ :: fp =>
      if (ip ≠ [] ∨ fp ≠ []) ∧ ip.all Char.isDigit ∧ fp.all Char.isDigit then
        some (signed.1 * ((digitsToNat ip : ℚ) + (digitsToNat fp : ℚ) / ((10 : ℚ) ^ fp.length)))
      else none

/-- Model of Python `float(x)` on a JSON scalar. -/
def pyFloat : PyNum → Option ℚ
  | .num q => some q
  | .str s => pyFloatString? s

/-- The Python expression `a or b` for an optional string `a` and a string default `b`:
falls through on `None` and on the empty string. -/
def pyOrS (a : Option String) (b : String) : String :=
  match a with
  | some s => if s = "" then b else s
  | none => b

/-- Whether `n` is a leading block of `h` (character lists). -/
def listPrefOf : List Char → List Char → Bool
  | [], _ => true
  | _ :: _, [] => false
  | a :: as, b :: bs => a == b && listPrefOf as bs

/-- Whether `n` occurs contiguously inside `h` (character lists). -/
def listInfOf (n : List Char) : List Char → Bool
  | [] => n.isEmpty
  | b :: bs => listPrefOf n (b :: bs) || listInfOf n bs

/-- The Python substring test `needle in hay`. -/
def pyIn (needle hay : String) : Bool :=
  listInfOf needle.toList hay.toList

/-- The Python call `s.split()` with no argument: split on whitespace runs,
producing no empty words. -/
def pySplitWS (s : String) : List String :=
  ((List.splitOnP Char.isWhitespace s.toList).map (fun l => String.mk l)).filter
    (fun w => w ≠ "")

/-- The Python expression `s.split("?")[0]`: everything before the first question mark. -/
def stripQueryString (s : String) : String :=
  String.mk (s.toList.takeWhile (fun c => c != '?'))

/-- The normalized record of `models.py` (`JobPost` dataclass). Salary
fields hold whatever scalar the adapter stored (the remote-ok adapter can
keep a falsy raw scalar as-is). -/
structure JobPost where
  title : String
  company : String
  location : String
  job_url : String
  source : String
  description : Option String := none
  job_type : Option String := none
  is_remote : Option Bool := none
  date_posted : Option String := none
  salary_min : Option PyNum := none
  salary_max : Option PyNum := none
  salary_interval : Option String := none
  deriving DecidableEq, Repr

/-- Convenience constructor for concrete test records. -/
def mkJob (t c : String) : JobPost :=
  { title := t, company := c, location := "Remote",
    job_url := "https://example.jobs/post", source := "indeed" }

/-- The deduplication fingerprint of `scraper.py`:
`(job.title.lower().strip(), job.company.lower().strip())`. -/
def fingerprint (j : JobPost) : String × String :=
  (strTrim (strToLower j.title), strTrim (strToLower j.company))

/-- The loop body of `_deduplicate` in `scraper.py`: a `seen` set of
fingerprints and a `unique_jobs` accumulator appended in iteration order. -/
def dedupGo (seen : List (String × String)) (unique_jobs : List JobPost) :
    List JobPost → List JobPost
  | [] => unique_jobs
  | job :: rest =>
      if fingerprint job ∈ seen then
        dedupGo seen unique_jobs rest
      else
        dedupGo (fingerprint job :: seen) (unique_jobs ++ [job]) rest

/-- `_deduplicate` from `scraper.py`. -/
def _deduplicate (jobs : List JobPost) : List JobPost :=
  dedupGo [] [] jobs

/-- Spec-side restatement of the deduplication policy, following the words of the
spec: keep the first record seen for each fingerprint, discard every later
record carrying the same fingerprint. -/
def dedupFirstWins : List JobPost → List JobPost
  | [] => []
  | j :: rest =>
      j :: dedupFirstWins (rest.filter (fun x => fingerprint x ≠ fingerprint j))
termination_by l => l.length
decreasing_by
  simp only [List.length_cons]
  exact Nat.lt_succ_of_le (List.length_filter_le _ _)

/-- The known site identifiers of `scraper.py` (`SCRAPERS` mapping keys). -/
def SCRAPERS : List String := ["indeed", "linkedin", "remoteok"]

/-- How the sequential loop of `scrape_jobs` consumes one adapter run: a
scraper that raises (`Except.error`) is caught and contributes zero
records, a succeeding one contributes its list. -/
def runScraperResults (run_scraper : String → Except String (List JobPost))
    (site : String) : List JobPost :=
  match run_scraper site with
  | .ok jobs => jobs
  | .error _ => []

/-- `scrape_jobs` from `scraper.py` in sequential mode, abstracted over the
per-site scraper behaviour `run_scraper` (an adapter either returns a
record list or raises). `site_name = none` selects all known sites; an
unknown identifier raises `ValueError` carrying the invalid names, before
any adapter is consulted. -/
def scrape_jobs (site_name : Option (List String))
    (run_scraper : String → Except String (List JobPost)) :
    Except (List String) (List JobPost) :=
  let sites := site_name.getD SCRAPERS
  let invalid_sites := sites.filter (fun s => s ∉ SCRAPERS)
  if invalid_sites ≠ [] then
    .error invalid_sites
  else
    .ok (_deduplicate ((sites.map (runScraperResults run_scraper)).flatten))

/-- One upstream item of the JSearch response consumed by
`IndeedScraper._parse_job`; an absent-or-null dictionary entry is `none`. -/
structure IndeedItem where
  job_title : Option String := none
  employer_name : Option String := none
  job_city : Option String := none
  job_state : Option String := none
  job_country : Option String := none
  job_apply_link : Option String := none
  job_url : Option String := none
  job_is_remote : Option Bool := none
  job_posted_at_datetime_utc : Option String := none
  job_description : Option String := none
  job_min_salary : Option PyNum := none
  job_max_salary : Option PyNum := none
  job_salary_period : Option String := none
  job_employment_type : Option String := none
  deriving DecidableEq, Repr

/-- The employment-type lookup of `indeed_scraper.py`
(`job_type_map.get(job_type_raw, job_type_raw or None)`). -/
def indeedJobTypeMap (raw : String) : Option String :=
  match raw with
  | "fulltime" => some "fulltime"
  | "full_time" => some "fulltime"
  | "parttime" => some "parttime"
  | "part_time" => some "parttime"
  | "contractor" => some "contract"
  | "intern" => some "internship"
  | _ => if raw = "" then none else some raw

/-- `float(v) if v else None` as used in `indeed_scraper.py`: a falsy value
yields an absent salary, a truthy value is converted and a conversion
failure propagates as the outer exception (outer `none`). -/
def floatIfTruthy (v : Option PyNum) : Option (Option PyNum) :=
  if pyTruthy v then
    match v with
    | some x => (pyFloat x).map (fun q => some (PyNum.num q))
    | none => some none
  else some none

namespace IndeedScraper

/-- `IndeedScraper._parse_job`: builds a record from one JSearch item; the
surrounding `try/except` returns `None` when the salary conversion raises. -/
def _parse_job (data : IndeedItem) : Option JobPost := do
  let title := data.job_title.getD "Unknown"
  let company := data.employer_name.getD "Unknown"
  let locParts :=
    [data.job_city.getD "", data.job_state.getD "", data.job_country.getD ""].filter
      (fun s => s ≠ "")
  let location := if String.intercalate ", " locParts = "" then "Unknown"
                  else String.intercalate ", " locParts
  let job_url := pyOrS data.job_apply_link (pyOrS data.job_url "https://www.indeed.com")
  let is_remote := data.job_is_remote.getD false
  let date_posted := data.job_posted_at_datetime_utc
  let description := strTake (pyOrS data.job_description "") 500
  let salary_interval :=
    if strToLower (pyOrS data.job_salary_period "") = "" then none
    else some (strToLower (pyOrS data.job_salary_period ""))
  let job_type := indeedJobTypeMap (strToLower (pyOrS data.job_employment_type ""))
  let salary_min ← floatIfTruthy data.job_min_salary
  let salary_max ← floatIfTruthy data.job_max_salary
  pure { title, company, location, job_url, source := "indeed",
         description := some description, job_type, is_remote := some is_remote,
         date_posted, salary_min, salary_max, salary_interval }

end IndeedScraper

/-- The shared pagination loop shape of `IndeedScraper.scrape` and
`LinkedInScraper.scrape`: keep fetching pages (advancing the page cursor by
`step`) while fewer than `results_wanted` records are accumulated, stop on
the first empty page. `pages k` is the parsed record list of the fetch at
cursor `k` (a failed fetch parses to the empty list). -/
def scrapeLoopGo (pages : ℕ → List JobPost) (results_wanted step k : ℕ)
    (jobs : List JobPost) : List JobPost :=
  if h : jobs.length < results_wanted then
    match pages k with
    | [] => jobs
    | p :: ps => scrapeLoopGo pages results_wanted step (k + step) (jobs ++ p :: ps)
  else jobs
termination_by results_wanted - jobs.length
decreasing_by
  simp only [List.length_append, List.length_cons]
  omega

/-- `IndeedScraper.scrape`: paginate from page 1 in steps of 1, then
truncate with `jobs[:results_wanted]`. -/
def IndeedScraper.scrape (pages : ℕ → List JobPost) (results_wanted : ℕ) :
    List JobPost :=
  (scrapeLoopGo pages results_wanted 1 1 []).take results_wanted

/-- One markup card consumed by `LinkedInScraper._parse_job_card`; each
field is the raw text of the probed node, `none` when the node is absent. -/
structure LICard where
  title_text : Option String := none
  subtitle_text : Option String := none
  location_text : Option String := none
  link_href : Option String := none
  time_datetime : Option String := none
  deriving DecidableEq, Repr

namespace LinkedInScraper

/-- `LinkedInScraper._parse_job_card`: a card with no title heading is not
a job listing and yields no record; `get_text(strip=True)` trims the
extracted texts; the link href is cut at the first question mark. -/
def _parse_job_card (card : LICard) : Option JobPost :=
  match card.title_text with
  | none => none
  | some t =>
      let title := strTrim t
      let company := (card.subtitle_text.map strTrim).getD "Unknown"
      let location := (card.location_text.map strTrim).getD "Unknown"
      let job_url :=
        match card.link_href with
        | some href => stripQueryString href
        | none => ""
      let is_remote :=
        ["remote", "anywhere", "distributed"].any (fun w => pyIn w (strToLower location))
      some { title, company, location, job_url, source := "linkedin",
             is_remote := some is_remote, date_posted := card.time_datetime }

/-- `LinkedInScraper.scrape`: paginate from offset 0 in steps of 25, then
truncate with `jobs[:results_wanted]`. -/
def scrape (pages : ℕ → List JobPost) (results_wanted : ℕ) : List JobPost :=
  (scrapeLoopGo pages results_wanted 25 0 []).take results_wanted

end LinkedInScraper

/-- One element of the bulk JSON array consumed by the remote-ok adapter;
`tags` defaults to the empty list like `job_data.get("tags", [])`. -/
structure ROItem where
  position : Option String := none
  company : Option String := none
  url : Option String := none
  salary_min : Option PyNum := none
  salary_max : Option PyNum := none
  date : Option String := none
  description : Option String := none
  tags : List String := []
  deriving DecidableEq, Repr

/-- The local match test of `RemoteOKScraper.scrape`: some query word is a
substring of the lower-cased title or of the lower-cased space-joined tag
list. -/
def rokMatches (search_words : List String) (it : ROItem) : Bool :=
  let title := strToLower (it.position.getD "")
  let tags := strToLower (String.intercalate " " it.tags)
  search_words.any (fun word => pyIn word title || pyIn word tags)

/-- The filtering loop of `RemoteOKScraper.scrape`: append each matching
candidate, and after every candidate stop once
`len(matched) >= results_wanted`. -/
def rokFilterLoop (words : List String) (results_wanted : ℕ) :
    List ROItem → List ROItem → List ROItem
  | [], matched => matched
  | it :: rest, matched =>
      let matchedStep := if rokMatches words it then matched ++ [it] else matched
      if results_wanted ≤ matchedStep.length then matchedStep
      else rokFilterLoop words results_wanted rest matchedStep

/-- The candidate-selection stage of `RemoteOKScraper.scrape` on a
non-empty upstream array: drop the leading metadata element
(`data[1:]`), lower-case and word-split the query, then run the
filtering loop. -/
def rokMatchedCandidates (search_term : String) (results_wanted : ℕ)
    (d : List ROItem) : List ROItem :=
  rokFilterLoop (pySplitWS (strToLower search_term)) results_wanted d.tail []

/-- `float(v)` applied in `remoteok_scraper.py` only when the raw value is
truthy; a falsy raw value is kept as-is in the record. -/
def rokFloatIfTruthy (v : Option PyNum) : Option (Option PyNum) :=
  if pyTruthy v then
    match v with
    | some x => (pyFloat x).map (fun q => some (PyNum.num q))
    | none => some none
  else some v

namespace RemoteOKScraper

/-- `RemoteOKScraper._parse_job`: an item with a falsy `position` yields no
record; a salary conversion failure raises into the surrounding
`try/except` and drops the whole item. -/
def _parse_job (data : ROItem) : Option JobPost := do
  if pyTruthyS data.position then
    let title := data.position.getD "Unknown"
    let company := data.company.getD "Unknown"
    let job_url := data.url.getD "https://remoteok.com"
    let salary_min ← rokFloatIfTruthy data.salary_min
    let salary_max ← rokFloatIfTruthy data.salary_max
    pure { title, company, location := "Remote", job_url, source := "remoteok",
           is_remote := some true, salary_min, salary_max,
           salary_interval := if pyTruthy salary_min then some "yearly" else none,
           date_posted := data.date,
           description :=
             match data.description with
             | some d => if d = "" then none else some (strTake d 500)
             | none => none }
  else none

/-- `RemoteOKScraper.scrape`, abstracted over the fetched bulk array
(`none` models a failed fetch): an empty or missing array yields nothing,
otherwise the matched candidates are parsed and the parse failures are
skipped. -/
def scrape (data : Option (List ROItem)) (search_term : String)
    (results_wanted : ℕ) : List JobPost :=
  match data with
  | none => []
  | some d =>
      if d = [] then []
      else (rokMatchedCandidates search_term results_wanted d).filterMap _parse_job

end RemoteOKScraper

/-- The metadata element of the bare-JSON example array of the spec. -/
def rokMetaItem : ROItem := {}

/-- The matching candidate of the bare-JSON example array of the spec. -/
def rokEngineerItem : ROItem := { position := some "Engineer", tags := ["python"] }

/-- The non-matching candidate of the bare-JSON example array of the spec. -/
def rokSalesItem : ROItem := { position := some "Sales" }

theorem dedupGo_acc (l : List JobPost) :
    ∀ (seen : List (String × String)) (acc : List JobPost),
      dedupGo seen acc l = acc ++ dedupGo seen [] l := by
  induction l with
  | nil => intro seen acc; simp [dedupGo]
  | cons j rest ih =>
      intro seen acc
      by_cases h : fingerprint j ∈ seen
      · simp only [dedupGo, if_pos h]
        exact ih seen acc
      · simp only [dedupGo, if_neg h]
        rw [ih _ (acc ++ [j]), ih _ ([] ++ [j])]
        simp [List.append_assoc]

theorem dedupGo_sublist (l : List JobPost) :
    ∀ seen : List (String × String), (dedupGo seen [] l).Sublist l := by
  induction l with
  | nil => intro seen; simp [dedupGo]
  | cons j rest ih =>
      intro seen
      by_cases h : fingerprint j ∈ seen
      · simp only [dedupGo, if_pos h]
        exact (ih seen).cons j
      · simp only [dedupGo, if_neg h]
        rw [dedupGo_acc]
        simpa using (ih (fingerprint j :: seen)).cons₂ j

theorem dedupGo_mem_fp (l : List JobPost) :
    ∀ (seen : List (String × String)) (j : JobPost),
      j ∈ dedupGo seen [] l → fingerprint j ∉ seen := by
  induction l with
  | nil => intro seen j hj; simp [dedupGo] at hj
  | cons a rest ih =>
      intro seen j hj
      by_cases h : fingerprint a ∈ seen
      · rw [dedupGo, if_pos h] at hj
        exact ih seen j hj
      · rw [dedupGo, if_neg h, dedupGo_acc] at hj
        rcases List.mem_append.1 hj with hj | hj
        · simp only [List.nil_append, List.mem_singleton] at hj
          subst hj; exact h
        · have := ih _ j hj
          exact fun hs => this (List.mem_cons_of_mem _ hs)

theorem dedupGo_pairwise (l : List JobPost) :
    ∀ seen : List (String × String),
      (dedupGo seen [] l).Pairwise (fun a b => fingerprint a ≠ fingerprint b) := by
  induction l with
  | nil => intro seen; simp [dedupGo]
  | cons a rest ih =>
      intro seen
      by_cases h : fingerprint a ∈ seen
      · rw [dedupGo, if_pos h]
        exact ih seen
      · rw [dedupGo, if_neg h, dedupGo_acc]
        simp only [List.nil_append, List.singleton_append, List.pairwise_cons]
        refine ⟨fun b hb hab => ?_, ih _⟩
        have := dedupGo_mem_fp rest _ b hb
        exact this (by rw [← hab]; exact List.mem_cons_self _ _)

theorem dedupGo_of_pairwise (l : List JobPost) :
    ∀ seen : List (String × String),
      l.Pairwise (fun a b => fingerprint a ≠ fingerprint b) →
      (∀ j ∈ l, fingerprint j ∉ seen) →
      dedupGo seen [] l = l := by
  induction l with
  | nil => intro seen _ _; simp [dedupGo]
  | cons a rest ih =>
      intro seen hp hs
      have ha : fingerprint a ∉ seen := hs a (List.mem_cons_self _ _)
      rw [dedupGo, if_neg ha, dedupGo_acc]
      simp only [List.nil_append, List.singleton_append, List.cons.injEq, true_and]
      refine ih _ (List.pairwise_cons.1 hp).2 fun j hj => ?_
      intro hmem
      rcases List.mem_cons.1 hmem with hmem | hmem
      · exact (List.pairwise_cons.1 hp).1 j hj hmem.symm
      · exact hs j (List.mem_cons_of_mem _ hj) hmem

theorem dedupGo_eq_firstWins (l : List JobPost) :
    ∀ seen : List (String × String),
      dedupGo seen [] l = dedupFirstWins (l.filter (fun j => fingerprint j ∉ seen)) := by
  induction l with
  | nil => intro seen; simp [dedupGo, dedupFirstWins]
  | cons a rest ih =>
      intro seen
      by_cases h : fingerprint a ∈ seen
      · rw [dedupGo, if_pos h, ih seen]
        congr 1
        simp [List.filter_cons, h]
      · rw [dedupGo, if_neg h, dedupGo_acc]
        have hkeep : (a :: rest).filter (fun j => fingerprint j ∉ seen)
            = a :: rest.filter (fun j => fingerprint j ∉ seen) := by
          simp [List.filter_cons, h]
        rw [hkeep, dedupFirstWins]
        simp only [List.nil_append, List.singleton_append, List.cons.injEq, true_and]
        rw [ih (fingerprint a :: seen)]
        congr 1
        rw [List.filter_filter]
        refine List.filter_congr fun x _ => ?_
        by_cases h1 : fingerprint x = fingerprint a <;>
          by_cases h2 : fingerprint x ∈ seen <;>
            simp [h1, h2]

theorem deduplicate_eq_firstWins (l : List JobPost) :
    _deduplicate l = dedupFirstWins l := by
  rw [_deduplicate, dedupGo_eq_firstWins]
  congr 1
  simp

theorem deduplicate_pairwise (l : List JobPost) :
    (_deduplicate l).Pairwise (fun a b => fingerprint a ≠ fingerprint b) :=
  dedupGo_pairwise l []

theorem deduplicate_of_pairwise (l : List JobPost)
    (h : l.Pairwise (fun a b => fingerprint a ≠ fingerprint b)) :
    _deduplicate l = l :=
  dedupGo_of_pairwise l [] h (by simp)

theorem deduplicate_sublist (l : List JobPost) :
    (_deduplicate l).Sublist l :=
  dedupGo_sublist l []

theorem scrape_jobs_valid (sites : List String)
    (run_scraper : String → Except String (List JobPost))
    (h : ∀ s ∈ sites, s ∈ SCRAPERS) :
    scrape_jobs (some sites) run_scraper
      = .ok (_deduplicate ((sites.map (runScraperResults run_scraper)).flatten)) := by
  have hfil : sites.filter (fun s => s ∉ SCRAPERS) = [] := by
    rw [List.filter_eq_nil_iff]
    intro a ha
    simp [h a ha]
  simp [scrape_jobs, hfil]
  exact h

theorem rokFilterLoop_eq (words : List String) (results_wanted : ℕ) :
    ∀ (items matched : List ROItem), matched.length < results_wanted →
      rokFilterLoop words results_wanted items matched
        = matched ++ (items.filter (rokMatches words)).take (results_wanted - matched.length) := by
  intro items
  induction items with
  | nil => intro matched _; simp [rokFilterLoop]
  | cons it rest ih =>
      intro matched hlt
      have hstop0 : ¬ results_wanted ≤ matched.length := Nat.not_le.2 hlt
      by_cases hm : rokMatches words it
      · by_cases hstop : results_wanted ≤ matched.length + 1
        · have hw : results_wanted - matched.length = 1 := by omega
          have hunfold : rokFilterLoop words results_wanted (it :: rest) matched
              = matched ++ [it] := by
            simp [rokFilterLoop, hm, hstop]
          rw [hunfold]
          simp [List.filter_cons, hm, hw]
        · have hlt2 : (matched ++ [it]).length < results_wanted := by
            simp only [List.length_append, List.length_cons, List.length_nil]
            omega
          have hunfold : rokFilterLoop words results_wanted (it :: rest) matched
              = rokFilterLoop words results_wanted rest (matched ++ [it]) := by
            simp [rokFilterLoop, hm, hstop]
          rw [hunfold, ih _ hlt2]
          have htake : results_wanted - matched.length
              = (results_wanted - (matched ++ [it]).length) + 1 := by
            simp only [List.length_append, List.length_cons, List.length_nil]
            omega
          simp [List.filter_cons, hm, htake, List.take_succ_cons, List.append_assoc]
      · have hunfold : rokFilterLoop words results_wanted (it :: rest) matched
            = rokFilterLoop words results_wanted rest matched := by
          simp [rokFilterLoop, hm, hstop0]
        rw [hunfold, ih matched hlt]
        simp [List.filter_cons, hm]

/-- C1: deduplication keeps exactly the first record seen for each
fingerprint — `_deduplicate` agrees with the first-wins restatement
`dedupFirstWins` on every list — and the fingerprint (lower-cased trimmed
title, lower-cased trimmed company) is case- and whitespace-insensitive:
("Backend Engineer", "Acme Inc") and (" backend engineer ", "ACME INC")
collide. -/
theorem C1_dedup_keeps_first_per_fingerprint :
    (∀ jobs : List JobPost, _deduplicate jobs = dedupFirstWins jobs)
  ∧ fingerprint (mkJob "Backend Engineer" "Acme Inc")
      = fingerprint (mkJob " backend engineer " "ACME INC") :=
  ⟨deduplicate_eq_firstWins, by decide⟩

/-- C9: deduplication is idempotent — applying `_deduplicate` to its own
output returns that output unchanged. -/
theorem C9_dedup_idempotent :
    ∀ jobs : List JobPost, _deduplicate (_deduplicate jobs) = _deduplicate jobs :=
  fun jobs => deduplicate_of_pairwise _ (deduplicate_pairwise jobs)

/-- C2: requesting any source list containing an identifier outside
`SCRAPERS` makes `scrape_jobs` fail with a validation error carrying
exactly the invalid identifiers, for every adapter behaviour alike (so no
adapter is consulted); a list of only known identifiers never produces
that error. -/
theorem C2_unknown_site_validation :
    (∀ (sites : List String) (s : String), s ∈ sites → s ∉ SCRAPERS →
       ∀ run_scraper : String → Except String (List JobPost),
         scrape_jobs (some sites) run_scraper
             = Except.error (sites.filter (fun x => x ∉ SCRAPERS))
           ∧ s ∈ sites.filter (fun x => x ∉ SCRAPERS))
  ∧ (∀ sites : List String, (∀ s ∈ sites, s ∈ SCRAPERS) →
       ∀ run_scraper : String → Except String (List JobPost),
         ∃ jobs, scrape_jobs (some sites) run_scraper = Except.ok jobs) := by
  constructor
  · intro sites s hs hns run_scraper
    have hmem : s ∈ sites.filter (fun x => x ∉ SCRAPERS) :=
      List.mem_filter.2 ⟨hs, by simpa using hns⟩
    have hne : sites.filter (fun x => x ∉ SCRAPERS) ≠ [] :=
      List.ne_nil_of_mem hmem
    refine ⟨?_, hmem⟩
    simp only [scrape_jobs, Option.getD_some]
    rw [if_pos hne]
  · intro sites h run_scraper
    exact ⟨_, scrape_jobs_valid sites run_scraper h⟩

/-- Witness for C2: the unknown identifier "flurb" is rejected and named,
independently of the adapters, while a known-only list succeeds. -/
theorem C2_unknown_site_validation_witness :
    (scrape_jobs (some ["indeed", "flurb"]) (fun _ => Except.ok [])
         = Except.error (["indeed", "flurb"].filter (fun x => x ∉ SCRAPERS))
       ∧ "flurb" ∈ ["indeed", "flurb"].filter (fun x => x ∉ SCRAPERS))
  ∧ ∃ jobs, scrape_jobs (some ["indeed", "remoteok"]) (fun _ => Except.ok [])
      = Except.ok jobs :=
  ⟨C2_unknown_site_validation.1 ["indeed", "flurb"] "flurb" (by decide) (by decide) _,
   C2_unknown_site_validation.2 ["indeed", "remoteok"] (by decide) _⟩

/-- C3: in sequential mode a raising adapter is caught and contributes
zero records while every remaining adapter still contributes; the run
returns normally with the deduplicated concatenation of the per-adapter
outputs (failures counting as empty). -/
theorem C3_sequential_failure_tolerance :
    (∀ (sites : List String) (run_scraper : String → Except String (List JobPost)),
       (∀ s ∈ sites, s ∈ SCRAPERS) →
       scrape_jobs (some sites) run_scraper
         = Except.ok (_deduplicate
             ((sites.map (runScraperResults run_scraper)).flatten)))
  ∧ (∀ (run_scraper : String → Except String (List JobPost)) (site e : String),
       run_scraper site = Except.error e →
       runScraperResults run_scraper site = []) := by
  constructor
  · exact fun sites f h => scrape_jobs_valid sites f h
  · intro f site e h
    simp [runScraperResults, h]

/-- Witness for C3: with the indeed adapter raising and linkedin
succeeding, the run still returns normally and the failing adapter
contributes zero records. -/
theorem C3_sequential_failure_tolerance_witness :
    scrape_jobs (some ["indeed", "linkedin"])
        (fun s => if s = "indeed" then Except.error "boom"
          else Except.ok [mkJob "Dev" "Acme"])
      = Except.ok (_deduplicate (((["indeed", "linkedin"]).map
          (runScraperResults (fun s => if s = "indeed" then Except.error "boom"
            else Except.ok [mkJob "Dev" "Acme"]))).flatten))
  ∧ runScraperResults (fun s => if s = "indeed" then Except.error "boom"
        else Except.ok [mkJob "Dev" "Acme"]) "indeed" = [] :=
  ⟨C3_sequential_failure_tolerance.1 _ _ (by decide),
   C3_sequential_failure_tolerance.2 _ "indeed" "boom" rfl⟩

/-- C7: deduplication returns a sublist of its input, so the relative
order of the records each adapter contributed is preserved; in sequential
mode adapters returning [a1, a2] and [b1] with no fingerprint overlap
yield exactly [a1, a2, b1]. -/
theorem C7_sequential_order_preserved :
    (∀ jobs : List JobPost, (_deduplicate jobs).Sublist jobs)
  ∧ (∀ a1 a2 b1 : JobPost,
       fingerprint a1 ≠ fingerprint a2 →
       fingerprint a1 ≠ fingerprint b1 →
       fingerprint a2 ≠ fingerprint b1 →
       scrape_jobs (some ["indeed", "linkedin"])
           (fun s => if s = "indeed" then Except.ok [a1, a2] else Except.ok [b1])
         = Except.ok [a1, a2, b1]) := by
  constructor
  · exact deduplicate_sublist
  · intro a1 a2 b1 h12 h13 h23
    have hp : ([a1, a2, b1] : List JobPost).Pairwise
        (fun a b => fingerprint a ≠ fingerprint b) := by
      refine List.Pairwise.cons ?_ (List.Pairwise.cons ?_ ?_)
      · intro b hb
        rcases List.mem_cons.1 hb with rfl | hb
        · exact h12
        · obtain rfl := List.mem_singleton.1 hb
          exact h13
      · intro b hb
        obtain rfl := List.mem_singleton.1 hb
        exact h23
      · exact List.pairwise_singleton _ _
    have hflat : ((["indeed", "linkedin"]).map (runScraperResults
        (fun s => if s = "indeed" then Except.ok [a1, a2] else Except.ok [b1]))).flatten
        = [a1, a2, b1] := by
      simp [runScraperResults]
    rw [scrape_jobs_valid _ _ (by decide), hflat, deduplicate_of_pairwise _ hp]

/-- Witness for C7 at three concrete records with pairwise distinct
fingerprints. -/
theorem C7_sequential_order_preserved_witness :
    scrape_jobs (some ["indeed", "linkedin"])
        (fun s => if s = "indeed" then Except.ok [mkJob "A" "C", mkJob "B" "C"]
          else Except.ok [mkJob "D" "E"])
      = Except.ok [mkJob "A" "C", mkJob "B" "C", mkJob "D" "E"] :=
  C7_sequential_order_preserved.2 _ _ _ (by decide) (by decide) (by decide)

/-- C6: the bare-JSON adapter always discards the leading metadata element
and, for a positive requested count, accepts a remaining candidate exactly
when some query word is a substring of the lower-cased title or lower-cased
space-joined tag list, stopping once the count is accumulated (the matched
list is the filtered candidate list truncated to the count); on the example
array of the spec with query "python" and count 10, exactly the "Engineer"
entry is matched. -/
theorem C6_rok_local_filter :
    (∀ (search : String) (wanted : ℕ) (meta : ROItem) (candidates : List ROItem),
       1 ≤ wanted →
       rokMatchedCandidates search wanted (meta :: candidates)
         = (candidates.filter (rokMatches (pySplitWS (strToLower search)))).take wanted)
  ∧ rokMatchedCandidates "python" 10 [rokMetaItem, rokEngineerItem, rokSalesItem]
      = [rokEngineerItem] := by
  constructor
  · intro search wanted meta candidates hw
    rw [rokMatchedCandidates, List.tail_cons,
      rokFilterLoop_eq _ _ _ [] (by simpa using hw)]
    simp
  · decide

/-- Witness for C6 at a concrete positive count. -/
theorem C6_rok_local_filter_witness :
    rokMatchedCandidates "python" 3 [rokMetaItem, rokEngineerItem, rokSalesItem]
      = ([rokEngineerItem, rokSalesItem].filter
          (rokMatches (pySplitWS (strToLower "python")))).take 3 :=
  C6_rok_local_filter.1 "python" 3 rokMetaItem [rokEngineerItem, rokSalesItem]
    (by decide)

/-- C10 amended: the indeed and linkedin adapters truncate their output to
the requested count for every count, and the remote-ok adapter respects the
bound for every positive count (at count 0 it can overshoot — see the
counterexample). -/
theorem C10_scrape_length_bound :
    (∀ (pages : ℕ → List JobPost) (wanted : ℕ),
       (IndeedScraper.scrape pages wanted).length ≤ wanted)
  ∧ (∀ (pages : ℕ → List JobPost) (wanted : ℕ),
       (LinkedInScraper.scrape pages wanted).length ≤ wanted)
  ∧ (∀ (data : Option (List ROItem)) (search : String) (wanted : ℕ),
       1 ≤ wanted →
       (RemoteOKScraper.scrape data search wanted).length ≤ wanted) := by
  refine ⟨?_, ?_, ?_⟩
  · intro pages wanted
    simp only [IndeedScraper.scrape]
    rw [List.length_take]
    exact min_le_left _ _
  · intro pages wanted
    simp only [LinkedInScraper.scrape]
    rw [List.length_take]
    exact min_le_left _ _
  · intro data search wanted hw
    match data with
    | none => simp [RemoteOKScraper.scrape]
    | some d =>
        by_cases hd : d = []
        · simp [RemoteOKScraper.scrape, hd]
        · simp only [RemoteOKScraper.scrape]
          rw [if_neg hd]
          refine le_trans (List.length_filterMap_le _ _) ?_
          rw [rokMatchedCandidates, rokFilterLoop_eq _ _ _ [] (by simpa using hw)]
          simp only [List.nil_append, List.length_take, Nat.sub_zero]
          exact min_le_left _ _

/-- Counterexample to C10 as stated: at requested count 0 the remote-ok
adapter still returns one record, because the stop check runs only after a
matching candidate has been accepted and no final truncation is applied. -/
theorem C10_scrape_length_bound_cex :
    ¬ ((RemoteOKScraper.scrape (some [rokMetaItem, rokEngineerItem]) "python" 0).length
        ≤ 0) := by
  decide

/-- Witness for C10 at a concrete positive count. -/
theorem C10_scrape_length_bound_witness :
    (RemoteOKScraper.scrape (some [rokMetaItem, rokEngineerItem]) "python" 5).length
      ≤ 5 :=
  C10_scrape_length_bound.2.2 (some [rokMetaItem, rokEngineerItem]) "python" 5
    (by decide)

/-- A JSearch item whose title is whitespace only. -/
def indeedBlankTitleItem : IndeedItem :=
  { job_title := some "   ", employer_name := some "Acme" }

/-- Counterexample to C4 as stated: the commercial-API adapter constructs a
record whose title trims to the empty string — nothing rejects it. -/
theorem C4_cex_blank_title_constructed :
    (IndeedScraper._parse_job indeedBlankTitleItem).map (fun j => strTrim j.title)
      = some "" := by
  decide

/-- C4 amended: adapters discard upstream items only through their own
checks — the bare-JSON adapter drops items whose `position` is falsy and
the HTML-board adapter drops cards without a title heading — but no adapter
validates that title, company or job_url are non-empty after trimming, and
the commercial-API adapter constructs a record from a whitespace-only
title. -/
theorem C4_no_trimmed_nonempty_validation :
    (∀ d : ROItem, pyTruthyS d.position = false → RemoteOKScraper._parse_job d = none)
  ∧ (∀ c : LICard, c.title_text = none → LinkedInScraper._parse_job_card c = none)
  ∧ (IndeedScraper._parse_job indeedBlankTitleItem).map (fun j => strTrim j.title)
      = some "" := by
  refine ⟨?_, ?_, by decide⟩
  · intro d hd
    simp [RemoteOKScraper._parse_job, hd]
  · intro c hc
    simp [LinkedInScraper._parse_job_card, hc]

/-- Witness for C4 at concrete discarded inputs. -/
theorem C4_no_trimmed_nonempty_validation_witness :
    RemoteOKScraper._parse_job ({ } : ROItem) = none
  ∧ LinkedInScraper._parse_job_card ({ } : LICard) = none :=
  ⟨C4_no_trimmed_nonempty_validation.1 { } rfl,
   C4_no_trimmed_nonempty_validation.2.1 { } rfl⟩

/-- A JSearch item carrying a malformed minimum-salary string. -/
def indeedBadSalaryItem : IndeedItem :=
  { job_title := some "Dev", employer_name := some "Acme",
    job_min_salary := some (.str "abc") }

/-- The same JSearch item without the malformed salary. -/
def indeedPlainItem : IndeedItem :=
  { job_title := some "Dev", employer_name := some "Acme" }

/-- Counterexample to C5 as stated: the malformed minimum-salary string
"abc" makes the commercial-API adapter drop the whole item, while the same
item without the salary parses to a record. -/
theorem C5_cex_malformed_salary_drops_whole_record :
    IndeedScraper._parse_job indeedBadSalaryItem = none
  ∧ (IndeedScraper._parse_job indeedPlainItem).map (fun j => j.title) = some "Dev" := by
  exact ⟨by decide, by decide⟩

/-- C5 amended: a malformed (truthy but unparseable) numeric salary value
raises into the per-item exception handler, which drops the WHOLE record,
in both the commercial-API and the bare-JSON adapter; only a falsy salary
value leaves the field absent while the record is kept. -/
theorem C5_malformed_salary_drops_record :
    (∀ d : IndeedItem, floatIfTruthy d.job_min_salary = none →
       IndeedScraper._parse_job d = none)
  ∧ (∀ d : IndeedItem, floatIfTruthy d.job_max_salary = none →
       IndeedScraper._parse_job d = none)
  ∧ (∀ d : ROItem, rokFloatIfTruthy d.salary_min = none →
       RemoteOKScraper._parse_job d = none)
  ∧ (∀ d : IndeedItem, pyTruthy d.job_min_salary = false →
       pyTruthy d.job_max_salary = false →
       (IndeedScraper._parse_job d).map (fun j => j.salary_min) = some none
         ∧ (IndeedScraper._parse_job d).map (fun j => j.salary_max) = some none) := by
  refine ⟨?_, ?_, ?_, ?_⟩
  · intro d h
    simp [IndeedScraper._parse_job, h]
  · intro d h
    cases hmin : floatIfTruthy d.job_min_salary <;>
      simp [IndeedScraper._parse_job, hmin, h]
  · intro d h
    by_cases hp : pyTruthyS d.position <;>
      simp [RemoteOKScraper._parse_job, hp, h]
  · intro d hmin hmax
    have h1 : floatIfTruthy d.job_min_salary = some none := by
      simp [floatIfTruthy, hmin]
    have h2 : floatIfTruthy d.job_max_salary = some none := by
      simp [floatIfTruthy, hmax]
    constructor <;> simp [IndeedScraper._parse_job, h1, h2]

/-- Witness for C5 at concrete inputs: a truthy malformed salary drops the
item, absent salaries keep the record with both fields absent. -/
theorem C5_malformed_salary_drops_record_witness :
    IndeedScraper._parse_job
        { job_title := some "QA", job_min_salary := some (.str "not a number") }
      = none
  ∧ ((IndeedScraper._parse_job { job_title := some "QA" }).map
        (fun j => j.salary_min) = some none
      ∧ (IndeedScraper._parse_job { job_title := some "QA" }).map
        (fun j => j.salary_max) = some none) :=
  ⟨C5_malformed_salary_drops_record.1 _ (by decide),
   C5_malformed_salary_drops_record.2.2.2 _ rfl rfl⟩

theorem stripQueryString_no_qmark (s : String) :
    '?' ∉ (stripQueryString s).toList := by
  intro hmem
  have hmem2 : '?' ∈ s.toList.takeWhile (fun c => c != '?') := hmem
  have := List.mem_takeWhile_imp hmem2
  simp at this

/-- A LinkedIn card whose anchor href carries a tracking query string. -/
def liCardTracked : LICard :=
  { title_text := some "Dev", link_href := some "https://li.example/job/1?refId=xyz" }

/-- A JSearch item whose apply link carries a tracking query string. -/
def indeedTrackedItem : IndeedItem :=
  { job_title := some "Dev",
    job_apply_link := some "https://jobs.example/apply?utm_source=foo" }

/-- Counterexample to C8 as stated: the commercial-API adapter passes the
apply link through unmodified, query string and all, so the constructed
job_url of the constructed record retains its query-string component. -/
theorem C8_cex_indeed_keeps_query :
    (IndeedScraper._parse_job indeedTrackedItem).map (fun j => j.job_url)
        = some "https://jobs.example/apply?utm_source=foo"
  ∧ '?' ∈ "https://jobs.example/apply?utm_source=foo".toList := by
  exact ⟨by decide, by decide⟩

/-- C8 amended: only the HTML-board adapter strips the query string — every
record it produces has a job_url without a question mark — while the
commercial-API adapter passes the apply link (with its fallbacks) through
unmodified and the bare-JSON adapter passes the item url through
unmodified, so their records can retain tracking query parameters. -/
theorem C8_only_linkedin_strips_query :
    (∀ (card : LICard) (j : JobPost),
       LinkedInScraper._parse_job_card card = some j → '?' ∉ j.job_url.toList)
  ∧ (∀ d : IndeedItem,
       (IndeedScraper._parse_job d).map (fun j => j.job_url)
         = (IndeedScraper._parse_job d).map
             (fun _ => pyOrS d.job_apply_link (pyOrS d.job_url "https://www.indeed.com")))
  ∧ (∀ d : ROItem,
       (RemoteOKScraper._parse_job d).map (fun j => j.job_url)
         = (RemoteOKScraper._parse_job d).map
             (fun _ => d.url.getD "https://remoteok.com")) := by
  refine ⟨?_, ?_, ?_⟩
  · intro card j h
    cases hc : card.title_text with
    | none => rw [LinkedInScraper._parse_job_card, hc] at h; exact absurd h (by simp)
    | some t =>
        rw [LinkedInScraper._parse_job_card, hc] at h
        have hj := Option.some.inj h
        cases hl : card.link_href with
        | none => rw [hl] at hj; rw [← hj]; simp
        | some href =>
            rw [hl] at hj
            rw [← hj]
            exact stripQueryString_no_qmark href
  · intro d
    cases h1 : floatIfTruthy d.job_min_salary <;>
      cases h2 : floatIfTruthy d.job_max_salary <;>
        simp [IndeedScraper._parse_job, h1, h2]
  · intro d
    by_cases hp : pyTruthyS d.position
    · cases h1 : rokFloatIfTruthy d.salary_min <;>
        cases h2 : rokFloatIfTruthy d.salary_max <;>
          simp [RemoteOKScraper._parse_job, hp, h1, h2]
    · simp [RemoteOKScraper._parse_job, hp]

/-- Witness for C8: the record the HTML-board adapter builds from a tracked
link has the query string removed. -/
theorem C8_only_linkedin_strips_query_witness :
    LinkedInScraper._parse_job_card liCardTracked
        = some { title := "Dev", company := "Unknown", location := "Unknown",
                 job_url := "https://li.example/job/1", source := "linkedin",
                 is_remote := some false }
  ∧ '?' ∉ ({ title := "Dev", company := "Unknown", location := "Unknown",
             job_url := "https://li.example/job/1", source := "linkedin",
             is_remote := some false } : JobPost).job_url.toList :=
  ⟨by decide, C8_only_linkedin_strips_query.1 liCardTracked _ (by decide)⟩
